import Mathlib

/-!
Verification of the chaos-aware benchmark harness with pilot-wave coherence
model (`scripts/benchmark.py`).  Floating-point arithmetic of the source is
embedded as exact rational arithmetic; the constant `PHI`, computed once by
the source as `(1 + math.sqrt(5)) / 2` in IEEE-754 double precision, is
embedded as the exact rational value of that double.  Randomness (the
Gaussian draws of `fractal_noise` and `random.normalvariate`) is made an
explicit parameter, and the wall clock consumed by `time.sleep` is threaded
as an explicit value, so every operation is a pure function.
-/

/-- The constant `PHI = (1 + math.sqrt(5)) / 2`: the exact rational value of the IEEE-754
double the source computes (`0x1.9e3779b97f4a8p+0`). -/
def PHI : ℚ := 910872158600853 / 562949953421312

/-- The constant `LAMBDA1_THRESHOLD = 0.8`, the entropy threshold. -/
def LAMBDA1_THRESHOLD : ℚ := 0.8

/-- The constant `HBAR = 1.0`, the normalized reduced Planck constant. -/
def HBAR : ℚ := 1.0

/-- The constant `COHERENCE_TARGET = 0.25`, the coherence-gain target. -/
def COHERENCE_TARGET : ℚ := 0.25

/-- The `PilotWaveState` dataclass. -/
structure PilotWaveState where
  position : ℚ
  velocity : ℚ
  guidance_field : ℚ
  wave_amplitude : ℚ
  phase : ℚ
deriving DecidableEq

/-- The `BenchmarkRun` dataclass. -/
structure BenchmarkRun where
  query_id : String
  latency_ms : ℚ
  noise_level : ℚ
  success : Bool
  coherence : ℚ
  quantum_potential : ℚ
  trajectory_prediction : ℚ
deriving DecidableEq

/-- The function `calculate_quantum_potential(amplitude, gradient_amp)`. -/
def calculate_quantum_potential (amplitude gradient_amp : ℚ) : ℚ :=
  if amplitude < 1e-6 then 0
  else -(HBAR ^ 2) * (gradient_amp / amplitude) / 2

/-- The function `calculate_guidance_field(phase_gradient)`. -/
def calculate_guidance_field (phase_gradient : ℚ) : ℚ :=
  HBAR * phase_gradient

/-- The function `evolve_pilot_wave(state, noise, dt)`: one evolution step of the Bohmian
pilot-wave state. -/
def evolve_pilot_wave (state : PilotWaveState) (noise : ℚ) (dt : ℚ) : PilotWaveState :=
  let phase_drift := PHI * noise * dt
  let new_phase := state.phase + phase_drift
  let damping : ℚ := 0.98
  let noise_contribution := |noise| * PHI * 0.10
  let new_amplitude := max 0.7 (min 1.5 (state.wave_amplitude * damping + noise_contribution))
  let phase_gradient := (new_phase - state.phase) / dt
  let guidance := calculate_guidance_field phase_gradient
  let gradient_amp := (new_amplitude - state.wave_amplitude) / dt
  let q_potential := calculate_quantum_potential new_amplitude gradient_amp
  let momentum_factor : ℚ := 0.93
  let guidance_coupling := PHI * 0.16
  let acceleration := 0.015 * PHI / (1 + |state.velocity|)
  let new_velocity := max (-0.5) (min 0.5
    (state.velocity * momentum_factor + guidance * guidance_coupling + acceleration))
  let position_drift := new_velocity * dt * PHI
  let quantum_boost := q_potential * dt * 0.02
  let coherence_drive := 0.015 * (1.0 - state.position) * PHI
  let new_position := max 0.0 (min 1.0 (state.position + position_drift + quantum_boost + coherence_drive))
  { position := new_position
    velocity := new_velocity
    guidance_field := guidance
    wave_amplitude := new_amplitude
    phase := new_phase }

/-- The initial `PilotWaveState` built by `run_mock_op` when none is supplied. -/
def initial_pilot_state : PilotWaveState :=
  { position := 0.42
    velocity := 0.08
    guidance_field := 0.0
    wave_amplitude := 1.0
    phase := 0.0 }

/-- The function `run_mock_op(query, chaos, pilot_wave_state)`.  The Gaussian draw that
`fractal_noise` would produce under chaos mode is the explicit parameter
`draw` (only consulted when `chaos` is set, exactly as in the source, where
`noise` stays `0.0` otherwise). -/
def run_mock_op (query : String) (chaos : Bool) (pilot_wave_state : Option PilotWaveState)
    (draw : ℚ) : BenchmarkRun × PilotWaveState :=
  let base_latency : ℚ := 5.0
  let noise := if chaos then draw else 0.0
  let pws := pilot_wave_state.getD initial_pilot_state
  let new_pilot_state := evolve_pilot_wave pws noise 0.1
  let coherence := new_pilot_state.position
  let q_potential := calculate_quantum_potential new_pilot_state.wave_amplitude
    ((new_pilot_state.wave_amplitude - pws.wave_amplitude) / 0.1)
  let chaos_factor := |noise| * 10
  let guidance_stabilization := |new_pilot_state.guidance_field| * 2
  let latency := max 1.0 (base_latency + chaos_factor - guidance_stabilization)
  let success := decide (|noise| < LAMBDA1_THRESHOLD) || decide (coherence > 0.6)
  let trajectory_prediction := max 0.0 (min 1.0 (new_pilot_state.position + new_pilot_state.velocity * 0.1))
  ({ query_id := "mock"
     latency_ms := latency
     noise_level := noise
     success := success
     coherence := coherence
     quantum_potential := q_potential
     trajectory_prediction := trajectory_prediction }, new_pilot_state)

/-- Projection lemma: the phase returned by `evolve_pilot_wave`. -/
theorem evolve_phase (s : PilotWaveState) (noise dt : ℚ) :
    (evolve_pilot_wave s noise dt).phase = s.phase + PHI * noise * dt := rfl

/-- Projection lemma: the amplitude returned by `evolve_pilot_wave`. -/
theorem evolve_amplitude (s : PilotWaveState) (noise dt : ℚ) :
    (evolve_pilot_wave s noise dt).wave_amplitude
      = max 0.7 (min 1.5 (s.wave_amplitude * 0.98 + |noise| * PHI * 0.10)) := rfl

/-- Projection lemma: the guidance field returned by `evolve_pilot_wave`. -/
theorem evolve_guidance (s : PilotWaveState) (noise dt : ℚ) :
    (evolve_pilot_wave s noise dt).guidance_field
      = HBAR * ((s.phase + PHI * noise * dt - s.phase) / dt) := rfl

/-- Projection lemma: the velocity returned by `evolve_pilot_wave`. -/
theorem evolve_velocity (s : PilotWaveState) (noise dt : ℚ) :
    (evolve_pilot_wave s noise dt).velocity
      = max (-0.5) (min 0.5
          (s.velocity * 0.93 + HBAR * ((s.phase + PHI * noise * dt - s.phase) / dt) * (PHI * 0.16)
            + 0.015 * PHI / (1 + |s.velocity|))) := rfl

/-- A clamped value is at least the lower bound. -/
theorem le_clamp (lo hi x : ℚ) : lo ≤ max lo (min hi x) := le_max_left _ _

/-- A clamped value is at most the upper bound, provided the bounds are ordered. -/
theorem clamp_le (lo hi x : ℚ) (h : lo ≤ hi) : max lo (min hi x) ≤ hi :=
  max_le h (min_le_left _ _)

/-- A clamped value dominates any `p` below both the upper bound and the raw value. -/
theorem le_clamp_of_le (lo hi x p : ℚ) (hp : p ≤ hi) (hx : p ≤ x) :
    p ≤ max lo (min hi x) :=
  le_trans (le_min hp hx) (le_max_right _ _)

/-- Projection lemma: the position returned by `evolve_pilot_wave`, expressed
through the already-characterized velocity, amplitude and quantum potential. -/
theorem evolve_position (s : PilotWaveState) (noise dt : ℚ) :
    (evolve_pilot_wave s noise dt).position
      = max 0.0 (min 1.0 (s.position
          + (evolve_pilot_wave s noise dt).velocity * dt * PHI
          + calculate_quantum_potential (evolve_pilot_wave s noise dt).wave_amplitude
              (((evolve_pilot_wave s noise dt).wave_amplitude - s.wave_amplitude) / dt) * dt * 0.02
          + 0.015 * (1.0 - s.position) * PHI)) := rfl

/-- C1: for every input `PilotWaveState` and every noise value, at `dt = 0.1`
the state returned by `evolve_pilot_wave` has position in `[0,1]`, velocity in
`[-0.5,0.5]`, and wave amplitude in `[0.7,1.5]`, while phase is never clamped:
it is exactly the prior phase plus the drift `PHI * noise * dt`. -/
theorem evolve_clamp_invariants (s : PilotWaveState) (noise : ℚ) :
    0 ≤ (evolve_pilot_wave s noise 0.1).position
    ∧ (evolve_pilot_wave s noise 0.1).position ≤ 1
    ∧ -0.5 ≤ (evolve_pilot_wave s noise 0.1).velocity
    ∧ (evolve_pilot_wave s noise 0.1).velocity ≤ 0.5
    ∧ 0.7 ≤ (evolve_pilot_wave s noise 0.1).wave_amplitude
    ∧ (evolve_pilot_wave s noise 0.1).wave_amplitude ≤ 1.5
    ∧ (evolve_pilot_wave s noise 0.1).phase = s.phase + PHI * noise * 0.1 := by
  refine ⟨?_, ?_, ?_, ?_, ?_, ?_, evolve_phase s noise 0.1⟩
  · rw [evolve_position]; exact le_trans (by norm_num) (le_clamp 0.0 1.0 _)
  · rw [evolve_position]; exact le_trans (clamp_le 0.0 1.0 _ (by norm_num)) (by norm_num)
  · rw [evolve_velocity]; exact le_clamp _ _ _
  · rw [evolve_velocity]; exact clamp_le _ _ _ (by norm_num)
  · rw [evolve_amplitude]; exact le_clamp _ _ _
  · rw [evolve_amplitude]; exact clamp_le _ _ _ (by norm_num)

/-- Projection lemma: the noise level recorded by `run_mock_op`. -/
theorem run_noise_level (q : String) (chaos : Bool) (st : Option PilotWaveState) (draw : ℚ) :
    (run_mock_op q chaos st draw).1.noise_level = (if chaos then draw else 0.0) := rfl

/-- Projection lemma: the coherence recorded by `run_mock_op` is the evolved position. -/
theorem run_coherence (q : String) (chaos : Bool) (st : Option PilotWaveState) (draw : ℚ) :
    (run_mock_op q chaos st draw).1.coherence
      = (evolve_pilot_wave (st.getD initial_pilot_state) (if chaos then draw else 0.0) 0.1).position := rfl

/-- Projection lemma: the success flag computed by `run_mock_op`. -/
theorem run_success (q : String) (chaos : Bool) (st : Option PilotWaveState) (draw : ℚ) :
    (run_mock_op q chaos st draw).1.success
      = (decide (|if chaos then draw else 0.0| < LAMBDA1_THRESHOLD)
          || decide ((evolve_pilot_wave (st.getD initial_pilot_state) (if chaos then draw else 0.0) 0.1).position > 0.6)) := rfl

/-- Projection lemma: the latency computed by `run_mock_op`. -/
theorem run_latency (q : String) (chaos : Bool) (st : Option PilotWaveState) (draw : ℚ) :
    (run_mock_op q chaos st draw).1.latency_ms
      = max 1.0 (5.0 + |if chaos then draw else 0.0| * 10
          - |(evolve_pilot_wave (st.getD initial_pilot_state) (if chaos then draw else 0.0) 0.1).guidance_field| * 2) := rfl

/-- Projection lemma: the trajectory prediction computed by `run_mock_op`. -/
theorem run_trajectory (q : String) (chaos : Bool) (st : Option PilotWaveState) (draw : ℚ) :
    (run_mock_op q chaos st draw).1.trajectory_prediction
      = max 0.0 (min 1.0
          ((evolve_pilot_wave (st.getD initial_pilot_state) (if chaos then draw else 0.0) 0.1).position
            + (evolve_pilot_wave (st.getD initial_pilot_state) (if chaos then draw else 0.0) 0.1).velocity * 0.1)) := rfl

/-- The `"q"` field of one entry of the `"runs"` array in the JSON artifact
written by `main`: it serializes `r.query_id`. -/
def json_run_q (r : BenchmarkRun) : String := r.query_id

/-- C9: the `query_id` of every `BenchmarkRun` produced by `run_mock_op` is the
constant `"mock"`; the query argument never influences the result (two calls
differing only in the query string agree exactly), so the `"q"` field of every
entry of the `"runs"` JSON array is `"mock"`. -/
theorem run_query_id_mock (q1 q2 : String) (chaos : Bool) (st : Option PilotWaveState) (draw : ℚ) :
    (run_mock_op q1 chaos st draw).1.query_id = "mock"
    ∧ run_mock_op q1 chaos st draw = run_mock_op q2 chaos st draw
    ∧ json_run_q (run_mock_op q1 chaos st draw).1 = "mock" :=
  ⟨rfl, rfl, rfl⟩

/-- The quantity `coherence_gain` as computed in `main`: defaults to `0`, and is set to
`(final − initial)/initial` only when `initial_coherence` is present and
truthy (non-zero) and positive, mirroring
`if initial_coherence and initial_coherence > 0:`. -/
def coherence_gain_of (initial_coherence : Option ℚ) (final_coherence : ℚ) : ℚ :=
  match initial_coherence with
  | none => 0
  | some i => if i ≠ 0 ∧ 0 < i then (final_coherence - i) / i else 0

/-- The target classification of `main`: the gain meets the target when
`coherence_gain >= COHERENCE_TARGET`. -/
def gain_target_met (gain : ℚ) : Bool := decide (gain ≥ COHERENCE_TARGET)

/-- C7: the session coherence gain is `(final − initial)/initial`, is `0` when
the initial coherence is absent or `0`, and for `initial = 0.42`,
`final = 0.55` equals `13/42 ≈ 0.3095` (30.95%), which meets the configured
target `0.25`. -/
theorem coherence_gain_scenario :
    coherence_gain_of (some 0.42) 0.55 = 13 / 42
    ∧ coherence_gain_of none 0.55 = 0
    ∧ coherence_gain_of (some 0) 0.55 = 0
    ∧ (0.3095 : ℚ) ≤ 13 / 42 ∧ (13 / 42 : ℚ) ≤ 0.3096
    ∧ gain_target_met (coherence_gain_of (some 0.42) 0.55) = true := by
  have h42 : coherence_gain_of (some 0.42) 0.55 = 13 / 42 := by
    simp only [coherence_gain_of]
    rw [if_pos (by norm_num : (0.42 : ℚ) ≠ 0 ∧ (0 : ℚ) < 0.42)]
    norm_num
  refine ⟨h42, rfl, ?_, by norm_num, by norm_num, ?_⟩
  · simp only [coherence_gain_of]
    rw [if_neg (by norm_num : ¬((0 : ℚ) ≠ 0 ∧ (0 : ℚ) < 0))]
  · rw [h42]
    simp only [gain_target_met, COHERENCE_TARGET, decide_eq_true_eq]
    norm_num

/-- C4: for every noise value and every prior pilot-wave state, the run
produced by `run_mock_op` has `success = true` exactly when `|noise|` is below
the entropy threshold `0.8` or the evolved coherence (the position of the new
state) exceeds `0.6`. -/
theorem run_success_iff (q : String) (st : Option PilotWaveState) (noise : ℚ) :
    (run_mock_op q true st noise).1.success = true
      ↔ (|noise| < LAMBDA1_THRESHOLD
          ∨ (evolve_pilot_wave (st.getD initial_pilot_state) noise 0.1).position > 0.6) := by
  rw [run_success]
  simp [Bool.or_eq_true, decide_eq_true_eq]

/-- C5: for every query string, chaos flag, prior state, and noise draw
(including arbitrarily large values), the run produced by `run_mock_op` has a
strictly positive latency, and its coherence and trajectory prediction lie in
`[0, 1]`. -/
theorem run_safety (q : String) (chaos : Bool) (st : Option PilotWaveState) (draw : ℚ) :
    0 < (run_mock_op q chaos st draw).1.latency_ms
    ∧ 0 ≤ (run_mock_op q chaos st draw).1.coherence
    ∧ (run_mock_op q chaos st draw).1.coherence ≤ 1
    ∧ 0 ≤ (run_mock_op q chaos st draw).1.trajectory_prediction
    ∧ (run_mock_op q chaos st draw).1.trajectory_prediction ≤ 1 := by
  refine ⟨?_, ?_, ?_, ?_, ?_⟩
  · rw [run_latency]; exact lt_of_lt_of_le (by norm_num) (le_max_left _ _)
  · rw [run_coherence, evolve_position]
    exact le_trans (by norm_num) (le_clamp 0.0 1.0 _)
  · rw [run_coherence, evolve_position]
    exact le_trans (clamp_le 0.0 1.0 _ (by norm_num)) (by norm_num)
  · rw [run_trajectory]; exact le_trans (by norm_num) (le_clamp 0.0 1.0 _)
  · rw [run_trajectory]; exact le_trans (clamp_le 0.0 1.0 _ (by norm_num)) (by norm_num)

/-- Specialized projection lemma: the latency under chaos mode. -/
theorem run_latency_true (q : String) (st : Option PilotWaveState) (noise : ℚ) :
    (run_mock_op q true st noise).1.latency_ms
      = max 1.0 (5.0 + |noise| * 10
          - |(evolve_pilot_wave (st.getD initial_pilot_state) noise 0.1).guidance_field| * 2) := rfl

/-- For any non-zero time step, the guidance field produced by one evolution
step is exactly `PHI * noise`: the phase gradient (new phase minus old, over `dt`)
collapses to `PHI * noise` and `HBAR = 1`. -/
theorem guidance_exact (s : PilotWaveState) (noise dt : ℚ) (hdt : dt ≠ 0) :
    (evolve_pilot_wave s noise dt).guidance_field = PHI * noise := by
  rw [evolve_guidance]
  rw [show s.phase + PHI * noise * dt - s.phase = PHI * noise * dt from by ring]
  rw [mul_div_assoc, div_self hdt, mul_one]
  norm_num [HBAR]

/-- C10: for every state, noise, and `dt ≠ 0`, the guidance field returned by
`evolve_pilot_wave` equals `PHI * noise`, independent of `dt` and of the prior
state; hence the latency computed by `run_mock_op` equals
`max(1.0, 5.0 + |noise|*10 − 2*PHI*|noise|)` and is always at least `5.0`, so
the `1.0` floor is never the binding constraint. -/
theorem guidance_latency_relation (s : PilotWaveState) (noise dt : ℚ) (hdt : dt ≠ 0)
    (q : String) (st : Option PilotWaveState) :
    (evolve_pilot_wave s noise dt).guidance_field = PHI * noise
    ∧ (run_mock_op q true st noise).1.latency_ms
        = max 1.0 (5.0 + |noise| * 10 - 2 * PHI * |noise|)
    ∧ 5 ≤ (run_mock_op q true st noise).1.latency_ms := by
  have hPHI : (0 : ℚ) ≤ PHI := by norm_num [PHI]
  have hglat : (evolve_pilot_wave (st.getD initial_pilot_state) noise 0.1).guidance_field
      = PHI * noise := guidance_exact _ noise 0.1 (by norm_num)
  have hlat : (run_mock_op q true st noise).1.latency_ms
      = max 1.0 (5.0 + |noise| * 10 - 2 * PHI * |noise|) := by
    rw [run_latency_true, hglat, abs_mul, abs_of_nonneg hPHI]
    congr 1
    ring
  have h5 : (5 : ℚ) ≤ 5.0 + |noise| * 10 - 2 * PHI * |noise| := by
    have h2PHI : 2 * PHI ≤ 10 := by norm_num [PHI]
    nlinarith [abs_nonneg noise]
  exact ⟨guidance_exact s noise dt hdt, hlat,
    by rw [hlat]; exact le_trans h5 (le_max_right _ _)⟩

/-- Witness for `guidance_latency_relation` at `dt = 0.1`, `noise = 2`. -/
theorem guidance_latency_relation_witness :
    ((0.1 : ℚ) ≠ 0)
    ∧ ((evolve_pilot_wave initial_pilot_state 2 0.1).guidance_field = PHI * 2
        ∧ (run_mock_op "x" true none 2).1.latency_ms
            = max 1.0 (5.0 + |(2 : ℚ)| * 10 - 2 * PHI * |(2 : ℚ)|)
        ∧ 5 ≤ (run_mock_op "x" true none 2).1.latency_ms) :=
  ⟨by norm_num, guidance_latency_relation initial_pilot_state 2 0.1 (by norm_num) "x" none⟩

/-- The function `run_mock_op` with the wall clock made explicit: the call
`time.sleep(latency / 1000.0)` advances the clock by the computed latency (in
seconds) and has no other effect. -/
def run_mock_op_timed (clock : ℚ) (query : String) (chaos : Bool)
    (st : Option PilotWaveState) (draw : ℚ) : BenchmarkRun × PilotWaveState × ℚ :=
  let r := run_mock_op query chaos st draw
  (r.1, r.2, clock + r.1.latency_ms / 1000)

/-- One execution of the `run_mock_op` + `evolve_pilot_wave` chain over a
fixed sequence of noise samples (supplied directly, bypassing the random
generator), threading the pilot-wave state exactly as `main` does. -/
def run_sequence (query : String) (chaos : Bool) :
    ℚ → Option PilotWaveState → List ℚ → List BenchmarkRun × Option PilotWaveState × ℚ
  | clock, st, [] => ([], st, clock)
  | clock, st, d :: ds =>
    let r := run_mock_op_timed clock query chaos st d
    let rest := run_sequence query chaos r.2.2 (some r.2.1) ds
    (r.1 :: rest.1, rest.2.1, rest.2.2)

/-- C6: two independent executions of the chain over the same fixed noise
sequence from the same initial state produce identical `BenchmarkRun`
sequences and identical final pilot-wave states, regardless of when each
execution starts (the wall clock, the only ambient input left, does not
influence any run record). -/
theorem run_sequence_deterministic (query : String) (chaos : Bool)
    (c1 c2 : ℚ) (st : Option PilotWaveState) (ds : List ℚ) :
    (run_sequence query chaos c1 st ds).1 = (run_sequence query chaos c2 st ds).1
    ∧ (run_sequence query chaos c1 st ds).2.1 = (run_sequence query chaos c2 st ds).2.1 := by
  induction ds generalizing c1 c2 st with
  | nil => exact ⟨rfl, rfl⟩
  | cons d ds ih =>
    simp only [run_sequence, run_mock_op_timed]
    exact ⟨congrArg (List.cons (run_mock_op query chaos st d).1) (ih _ _ _).1, (ih _ _ _).2⟩

/-- The function `calculate_fibonacci_score(run_index)` exactly as the source implements
it: despite its docstring ("Calculate Fibonacci-weighted score ... More recent
runs get higher weight (1,1,2,3,5,8,13...)"), the body ignores `run_index`
entirely and returns one draw `random.normalvariate(0, PHI/5)`; the draw is
the explicit parameter `gauss_draw`.  In `main` the argument is the list of
latencies, hence `List ℚ` here. -/
def calculate_fibonacci_score (run_index : List ℚ) (gauss_draw : ℚ) : ℚ :=
  gauss_draw

/-- The Fibonacci weights `1, 1, 2, 3, 5, 8, 13, ...` (index 0 and 1 both map
to weight 1). -/
def fib_weight : ℕ → ℕ
  | 0 => 1
  | 1 => 1
  | n + 2 => fib_weight n + fib_weight (n + 1)

/-- The FreshnessScorer algorithm that the docstring of
`calculate_fibonacci_score` (and the spec) describe: pair the first N Fibonacci weights with the
values positionally and return `Σ(value·weight) / Σ(weight)`, with result `0`
for `N = 0`. -/
def freshness_scorer (values : List ℚ) : ℚ :=
  let weights := (List.range values.length).map fun i => (fib_weight i : ℚ)
  let num := ((values.zip weights).map fun p => p.1 * p.2).sum
  let den := weights.sum
  if den = 0 then 0 else num / den

/-- C2 (code bug exhibit): the function `calculate_fibonacci_score` returns
the raw Gaussian draw whatever the values are, so it disagrees with the
Fibonacci-weighted average its docstring and the spec describe: on `[]` the
described scorer gives `0` but the code returns the draw (e.g. `1`), and on
`[5]` the described scorer gives `5` but the code returns the draw (e.g. `0`). -/
theorem fibonacci_score_is_a_random_draw :
    (∀ (values : List ℚ) (g : ℚ), calculate_fibonacci_score values g = g)
    ∧ calculate_fibonacci_score [] 1 = 1
    ∧ freshness_scorer [] = 0
    ∧ calculate_fibonacci_score [5] 0 = 0
    ∧ freshness_scorer [5] = 5 := by
  refine ⟨fun _ _ => rfl, rfl, ?_, rfl, ?_⟩
  · simp [freshness_scorer]
  · norm_num [freshness_scorer, List.range_succ, fib_weight]

/-- The quantity `max([abs(r.noise_level) for r in results])` over a run sequence, as a
fold (a `max` of a nonempty list of nonnegative values). -/
def max_abs_noise (noises : List ℚ) : ℚ := (noises.map (fun x => |x|)).foldr max 0

/-- At least one run had a noise magnitude strictly above the entropy threshold. -/
def entropy_exceeded (noises : List ℚ) : Prop :=
  ∃ x ∈ noises, LAMBDA1_THRESHOLD < |x|

/-- The exit-code selection of `main`: exit 1 fires inside the chaos-analysis
block when the worst-case noise exceeds the entropy threshold, pilot-wave
recovery (`args.pilot_wave and coherence_gain > 0`) did not apply, and pilot
wave is off; otherwise exit 2 fires when pilot wave is enabled and the
coherence gain is below target; otherwise the process exits 0. -/
def exit_code (chaos_mode pilot_wave : Bool) (noises : List ℚ) (coherence_gain : ℚ) : ℕ :=
  if chaos_mode = true ∧ LAMBDA1_THRESHOLD < max_abs_noise noises
      ∧ ¬(pilot_wave = true ∧ 0 < coherence_gain) ∧ pilot_wave = false then 1
  else if pilot_wave = true ∧ coherence_gain < COHERENCE_TARGET then 2
  else 0

/-- Every member of a list is at most the fold of `max` seeded with `0`. -/
theorem le_foldr_max (l : List ℚ) (x : ℚ) (hx : x ∈ l) : x ≤ l.foldr max 0 := by
  induction l with
  | nil => cases hx
  | cons y ys ih =>
    rcases List.mem_cons.mp hx with h | h
    · rw [h]; exact le_max_left _ _
    · exact le_trans (ih h) (le_max_right _ _)

/-- If the fold of `max` seeded with `0` exceeds a nonnegative bound, some
member exceeds it. -/
theorem exists_gt_of_foldr_max_gt (l : List ℚ) (c : ℚ) (hc : 0 ≤ c)
    (h : c < l.foldr max 0) : ∃ x ∈ l, c < x := by
  induction l with
  | nil => exact absurd h (not_lt.mpr hc)
  | cons y ys ih =>
    rcases lt_max_iff.mp h with h1 | h1
    · exact ⟨y, List.mem_cons_self _ _, h1⟩
    · obtain ⟨x, hx, hcx⟩ := ih h1
      exact ⟨x, List.mem_cons_of_mem _ hx, hcx⟩

/-- The entropy threshold is exceeded by `max_abs_noise` exactly when some
run has a noise magnitude exceeding it. -/
theorem entropy_exceeded_iff (l : List ℚ) :
    LAMBDA1_THRESHOLD < max_abs_noise l ↔ entropy_exceeded l := by
  simp only [max_abs_noise, entropy_exceeded]
  constructor
  · intro h
    obtain ⟨x, hx, hcx⟩ := exists_gt_of_foldr_max_gt _ _ (by norm_num [LAMBDA1_THRESHOLD]) h
    obtain ⟨y, hy, rfl⟩ := List.mem_map.mp hx
    exact ⟨y, hy, hcx⟩
  · rintro ⟨y, hy, hlt⟩
    exact lt_of_lt_of_le hlt (le_foldr_max _ _ (List.mem_map_of_mem _ hy))

/-- C8: with noise identically zero whenever chaos mode is off (as in the
source, where `noise` stays `0.0` without chaos), the process exit code is `1`
exactly when some run exceeded the entropy threshold and pilot-wave mode (the
recovery mechanism) is off, `2` exactly when pilot-wave mode is on but the
coherence-gain target is missed, and `0` exactly otherwise. -/
theorem exit_code_classification (chaos pilot : Bool) (noises : List ℚ) (gain : ℚ)
    (hnc : chaos = false → ∀ x ∈ noises, x = 0) :
    (exit_code chaos pilot noises gain = 1 ↔ (entropy_exceeded noises ∧ pilot = false))
    ∧ (exit_code chaos pilot noises gain = 2 ↔ (pilot = true ∧ gain < COHERENCE_TARGET))
    ∧ (exit_code chaos pilot noises gain = 0
        ↔ (¬(entropy_exceeded noises ∧ pilot = false)
            ∧ ¬(pilot = true ∧ gain < COHERENCE_TARGET))) := by
  cases chaos with
  | false =>
    have hne : ¬ entropy_exceeded noises := by
      rintro ⟨x, hx, hlt⟩
      rw [hnc rfl x hx] at hlt
      norm_num [LAMBDA1_THRESHOLD] at hlt
    cases pilot with
    | false => simp [exit_code, hne]
    | true =>
      by_cases hg : gain < COHERENCE_TARGET
      · simp [exit_code, hne, hg]
      · simp [exit_code, hne, hg]
  | true =>
    cases pilot with
    | false =>
      by_cases hmax : LAMBDA1_THRESHOLD < max_abs_noise noises
      · simp [exit_code, hmax, (entropy_exceeded_iff noises).mp hmax]
      · have hne : ¬ entropy_exceeded noises := fun he => hmax ((entropy_exceeded_iff noises).mpr he)
        simp [exit_code, hmax, hne]
    | true =>
      by_cases hg : gain < COHERENCE_TARGET
      · simp [exit_code, hg]
      · simp [exit_code, hg]

/-- Witness for `exit_code_classification`: chaos on, pilot wave off, one run
with noise `1`, gain `0`. -/
theorem exit_code_classification_witness :
    ((true : Bool) = false → ∀ x ∈ ([1] : List ℚ), x = 0)
    ∧ ((exit_code true false [1] 0 = 1 ↔ (entropy_exceeded [1] ∧ (false : Bool) = false))
        ∧ (exit_code true false [1] 0 = 2 ↔ ((false : Bool) = true ∧ (0 : ℚ) < COHERENCE_TARGET))
        ∧ (exit_code true false [1] 0 = 0
            ↔ (¬(entropy_exceeded [1] ∧ (false : Bool) = false)
                ∧ ¬((false : Bool) = true ∧ (0 : ℚ) < COHERENCE_TARGET)))) :=
  ⟨fun h => absurd h (by simp), exit_code_classification true false [1] 0 (fun h => absurd h (by simp))⟩

/-- One zero-noise evolution step at `dt = 0.1` (the map iterated by the
zero-noise trajectory). -/
def step_zero (s : PilotWaveState) : PilotWaveState := evolve_pilot_wave s 0 0.1

/-- Under zero noise, from any state with nonnegative velocity, amplitude at
least `0.7`, and position at most `1`, one evolution step does not decrease
the position and preserves those three conditions. -/
theorem step_zero_mono (s : PilotWaveState) (hv : 0 ≤ s.velocity)
    (ha : 0.7 ≤ s.wave_amplitude) (hp : s.position ≤ 1) :
    s.position ≤ (step_zero s).position
    ∧ 0 ≤ (step_zero s).velocity
    ∧ 0.7 ≤ (step_zero s).wave_amplitude
    ∧ (step_zero s).position ≤ 1 := by
  unfold step_zero
  have hPHIpos : (0 : ℚ) < PHI := by norm_num [PHI]
  have hmid : HBAR * ((s.phase + PHI * 0 * 0.1 - s.phase) / 0.1) * (PHI * 0.16) = 0 := by
    rw [show s.phase + PHI * 0 * 0.1 - s.phase = (0 : ℚ) from by ring, zero_div, mul_zero,
      zero_mul]
  have hacc : 0 < 0.015 * PHI / (1 + |s.velocity|) := by
    apply div_pos (by norm_num [PHI])
    have := abs_nonneg s.velocity
    linarith
  have hvin : 0 ≤ s.velocity * 0.93 + HBAR * ((s.phase + PHI * 0 * 0.1 - s.phase) / 0.1)
      * (PHI * 0.16) + 0.015 * PHI / (1 + |s.velocity|) := by
    rw [hmid]
    have h93 : 0 ≤ s.velocity * 0.93 := mul_nonneg hv (by norm_num)
    linarith
  have hV : 0 ≤ (evolve_pilot_wave s 0 0.1).velocity := by
    rw [evolve_velocity]
    exact le_clamp_of_le _ _ _ 0 (by norm_num) hvin
  have hA7 : (0.7 : ℚ) ≤ (evolve_pilot_wave s 0 0.1).wave_amplitude := by
    rw [evolve_amplitude]; exact le_clamp _ _ _
  have hAle : (evolve_pilot_wave s 0 0.1).wave_amplitude ≤ s.wave_amplitude := by
    rw [evolve_amplitude]
    rw [show |(0 : ℚ)| * PHI * 0.10 = 0 from by simp, add_zero]
    apply max_le ha
    exact le_trans (min_le_right _ _) (by nlinarith)
  have hApos : 0 < (evolve_pilot_wave s 0 0.1).wave_amplitude :=
    lt_of_lt_of_le (by norm_num) hA7
  have hQ : 0 ≤ calculate_quantum_potential (evolve_pilot_wave s 0 0.1).wave_amplitude
      (((evolve_pilot_wave s 0 0.1).wave_amplitude - s.wave_amplitude) / 0.1) := by
    rw [calculate_quantum_potential,
      if_neg (not_lt.mpr (le_trans (by norm_num) hA7))]
    have hnum : ((evolve_pilot_wave s 0 0.1).wave_amplitude - s.wave_amplitude) / 0.1 ≤ 0 :=
      div_nonpos_iff.mpr (Or.inr ⟨sub_nonpos.mpr hAle, by norm_num⟩)
    have hdiv : (((evolve_pilot_wave s 0 0.1).wave_amplitude - s.wave_amplitude) / 0.1)
        / (evolve_pilot_wave s 0 0.1).wave_amplitude ≤ 0 :=
      div_nonpos_iff.mpr (Or.inr ⟨hnum, le_of_lt hApos⟩)
    rw [show (HBAR : ℚ) = 1 from by norm_num [HBAR]]
    nlinarith [hdiv]
  have hdrift : 0 ≤ (evolve_pilot_wave s 0 0.1).velocity * 0.1 * PHI :=
    mul_nonneg (mul_nonneg hV (by norm_num)) (le_of_lt hPHIpos)
  have hboost : 0 ≤ calculate_quantum_potential (evolve_pilot_wave s 0 0.1).wave_amplitude
      (((evolve_pilot_wave s 0 0.1).wave_amplitude - s.wave_amplitude) / 0.1) * 0.1 * 0.02 :=
    mul_nonneg (mul_nonneg hQ (by norm_num)) (by norm_num)
  have hdrive : 0 ≤ 0.015 * (1.0 - s.position) * PHI :=
    mul_nonneg (mul_nonneg (by norm_num) (by linarith)) (le_of_lt hPHIpos)
  have hple : (evolve_pilot_wave s 0 0.1).position ≤ 1 := by
    rw [evolve_position]
    exact le_trans (clamp_le 0.0 1.0 _ (by norm_num)) (by norm_num)
  refine ⟨?_, hV, hA7, hple⟩
  rw [evolve_position]
  have hp10 : s.position ≤ 1.0 := by rw [show (1.0 : ℚ) = 1 from by norm_num]; exact hp
  exact le_clamp_of_le _ _ _ _ hp10 (by linarith)

/-- C3 (amended): with noise fixed at `0` at every step (`dt = 0.1`), every
trajectory starting from a state with nonnegative velocity, wave amplitude at
least `0.7`, and position at most `1` — as holds for the default initial
state — has a non-decreasing position at every step. -/
theorem zero_noise_position_nondecreasing (s : PilotWaveState)
    (hv : 0 ≤ s.velocity) (ha : (0.7 : ℚ) ≤ s.wave_amplitude) (hp : s.position ≤ 1) (n : ℕ) :
    (step_zero^[n] s).position ≤ (step_zero^[n + 1] s).position := by
  have hinv : ∀ m : ℕ, 0 ≤ (step_zero^[m] s).velocity
      ∧ (0.7 : ℚ) ≤ (step_zero^[m] s).wave_amplitude
      ∧ (step_zero^[m] s).position ≤ 1 := by
    intro m
    induction m with
    | zero => exact ⟨hv, ha, hp⟩
    | succ k ih =>
      rw [Function.iterate_succ_apply']
      obtain ⟨h1, h2, h3⟩ := ih
      obtain ⟨_, g1, g2, g3⟩ := step_zero_mono _ h1 h2 h3
      exact ⟨g1, g2, g3⟩
  obtain ⟨h1, h2, h3⟩ := hinv n
  rw [Function.iterate_succ_apply']
  exact (step_zero_mono _ h1 h2 h3).1

/-- Witness for `zero_noise_position_nondecreasing` at the default initial
state and step 2. -/
theorem zero_noise_position_nondecreasing_witness :
    (0 ≤ initial_pilot_state.velocity
      ∧ (0.7 : ℚ) ≤ initial_pilot_state.wave_amplitude
      ∧ initial_pilot_state.position ≤ 1)
    ∧ (step_zero^[2] initial_pilot_state).position
        ≤ (step_zero^[2 + 1] initial_pilot_state).position :=
  ⟨⟨by norm_num [initial_pilot_state], by norm_num [initial_pilot_state],
      by norm_num [initial_pilot_state]⟩,
    zero_noise_position_nondecreasing initial_pilot_state
      (by norm_num [initial_pilot_state]) (by norm_num [initial_pilot_state])
      (by norm_num [initial_pilot_state]) 2⟩

/-- C3 (counterexample to the claim as stated): the trajectory started from
the state with position `0.42` (strictly below 1), velocity `-0.5`, amplitude
`1.0`, phase `0` decreases its position on the very first zero-noise step. -/
theorem zero_noise_trajectory_counterexample :
    (⟨0.42, -0.5, 0.0, 1.0, 0.0⟩ : PilotWaveState).position < 1
    ∧ (step_zero ⟨0.42, -0.5, 0.0, 1.0, 0.0⟩).position
        < (⟨0.42, -0.5, 0.0, 1.0, 0.0⟩ : PilotWaveState).position := by
  constructor
  · norm_num
  · norm_num [step_zero, evolve_pilot_wave, calculate_guidance_field,
      calculate_quantum_potential, HBAR, PHI, min_def, max_def, abs_of_nonpos, abs_of_nonneg]
